import Mathlib

/-
Verification of the reccd client screens (src/screens/ResultsScreen.js and
src/screens/SearchScreen.js): a shallow embedding of the result-polling state
machine, the multi-term pill filtering, the search-submission validation and
the click-logging / product-open logic, together with proofs of the behavioral
properties stated for them.

Time is measured in abstract time-units; one time-unit corresponds to 1000 ms
in the source (so the 5000 ms first-poll delay is 5 units, the 10000 ms poll
interval is 10 units and the 300000 ms polling ceiling is 300 units).
-/

namespace Reccd

/-- A result item as consumed by ResultsScreen.  Only the fields that feed
control flow are kept: `asin` (the identifier), the multi-term list
`search_terms`, the legacy single `search_term`, and the two URL fields
`link` and `product_url` used by handleOpenProduct.  Display-only payload
fields (title, price, rating, score, ...) are carried opaquely by the real
item and never influence any branch of the screen logic, so they are
omitted from the embedding. -/
structure ResultItem where
  asin : Nat
  search_terms : List String := []
  search_term : Option String := none
  link : Option String := none
  product_url : Option String := none
deriving DecidableEq, Repr

/-- The navigation parameters ResultsScreen destructures from route.params:
`const { searchTerm, searchTerms, userId = 1 } = route.params || {}`. -/
structure RouteParams where
  searchTerm : Option String := none
  searchTerms : Option (List String) := none
  userId : Nat := 1
deriving DecidableEq, Repr

/-- JavaScript truthiness of an optional string: absent and the empty string
are falsy. -/
def truthyS : Option String → Bool
  | some s => s ≠ ""
  | none => false

/-- `const hasTerm = searchTerm || (searchTerms && searchTerms.length > 0)`. -/
def hasTerm (p : RouteParams) : Bool :=
  truthyS p.searchTerm ||
    (match p.searchTerms with
     | some l => decide (0 < l.length)
     | none => false)

/-- `const isGenAI = searchTerms && searchTerms.length > 0`. -/
def isGenAI (p : RouteParams) : Bool :=
  match p.searchTerms with
  | some l => decide (0 < l.length)
  | none => false

/-- The component state of ResultsScreen that the fetch/poll logic touches:
`items`, `loading`, `error`, `lastUpdated`, `polling` (React state) and the
mutable ref `pollFailuresRef.current`. -/
structure PollerState where
  items : List ResultItem
  loading : Bool
  error : String
  lastUpdated : Option Nat
  polling : Bool
  pollFailures : Nat
deriving DecidableEq, Repr

/-- Outcome of one /api/results request: a successful response carrying
`data.items || []`, or a thrown error (network failure or a non-ok response,
which `fetchResults` turns into a thrown Error). -/
inductive FetchOutcome
  | success (items : List ResultItem)
  | failure (msg : String)
deriving DecidableEq, Repr

/-- `const POLL_FAILURES_BEFORE_ERROR = 2`. -/
def POLL_FAILURES_BEFORE_ERROR : Nat := 2

def MISSING_TERM_MSG : String := "Missing search term. Go back and try again."

def POLL_FAIL_MSG : String := "Couldn\x27t load results. Pull to refresh."

/-- The synchronous half of `fetchResults` that runs before the request is
awaited: the hasTerm guard (set the error and stop without issuing a
request), then `if (!isPolling) setLoading(true); setError('')`.  Returns the
updated state together with whether a request was actually issued. -/
def fetchIssue (p : RouteParams) (isPolling : Bool) (s : PollerState) :
    PollerState × Bool :=
  if hasTerm p = false then
    ({ s with error := MISSING_TERM_MSG, loading := false }, false)
  else
    let s1 := if isPolling = false then { s with loading := true } else s
    ({ s1 with error := "" }, true)

/-- The continuation of `fetchResults` that runs when the awaited request
resolves: the then-branch, the catch-branch and the finally-branch.  The
`mounted` flag models React semantics for a component that has unmounted in
the meantime: setState calls (`setItems`, `setError`, `setPolling`,
`setLastUpdated`, `setLoading`) are dropped, while writes to the mutable ref
`pollFailuresRef.current` still happen. -/
def fetchResolve (isPolling : Bool) (out : FetchOutcome) (now : Nat)
    (mounted : Bool) (s : PollerState) : PollerState :=
  let s2 :=
    match out with
    | .success newItems =>
      let a := if isPolling then { s with pollFailures := 0 } else s
      let b := if mounted then { a with items := newItems } else a
      if 0 < newItems.length then
        let c := if mounted then { b with lastUpdated := some now } else b
        if isPolling ∧ 10 ≤ newItems.length then
          if mounted then { c with polling := false } else c
        else c
      else b
    | .failure msg =>
      if isPolling then
        let a := { s with pollFailures := s.pollFailures + 1 }
        if POLL_FAILURES_BEFORE_ERROR ≤ a.pollFailures then
          if mounted then { a with error := POLL_FAIL_MSG, polling := false }
          else a
        else a
      else
        if mounted then { s with error := msg } else s
  if isPolling = false then
    if mounted then { s2 with loading := false } else s2
  else s2

/-- One whole `fetchResults(isPolling)` call on a mounted component, with the
request resolving to `out` (the synchronous semantics used by the timer-driven
machine below, where each poll is issued and resolved atomically). -/
def fetchResults (p : RouteParams) (isPolling : Bool) (out : FetchOutcome)
    (now : Nat) (s : PollerState) : PollerState :=
  match fetchIssue p isPolling s with
  | (s1, true) => fetchResolve isPolling out now true s1
  | (s1, false) => s1

/-! ## Multi-term view projection (pills) -/

/-- `itemTerms`: the term set of an item — its explicit multi-term list when
non-empty, else its (truthy) legacy single term, else empty:
`(item.search_terms && item.search_terms.length > 0) ? item.search_terms
 : (item.search_term ? [item.search_term] : [])`. -/
def itemTerms (item : ResultItem) : List String :=
  if 0 < item.search_terms.length then item.search_terms
  else
    match item.search_term with
    | some t => if t = "" then [] else [t]
    | none => []

/-- `selectedPills[t]` lookup with JavaScript truthiness: an absent key is
falsy.  The selection object is modelled as an association list. -/
def pillSelected (pills : List (String × Bool)) (t : String) : Bool :=
  (pills.lookup t).getD false

/-- `visibleItems`: in GenAI mode with a non-empty pill selection, keep an
item when its term set is empty or some of its terms has a selected pill;
otherwise show all items unfiltered. -/
def visibleItems (genai : Bool) (pills : List (String × Bool))
    (items : List ResultItem) : List ResultItem :=
  if genai && decide (0 < pills.length) then
    items.filter (fun item =>
      let terms := itemTerms item
      terms.isEmpty || terms.any (fun t => pillSelected pills t))
  else items

/-- `pillCount`: number of items whose term set contains the pill term. -/
def pillCount (items : List ResultItem) (term : String) : Nat :=
  (items.filter (fun item => (itemTerms item).contains term)).length

/-! ## SearchScreen submission -/

inductive SearchMode
  | regular
  | genai
deriving DecidableEq, Repr

/-- Outcome of the POST /api/search request: an ok response (its `message`
and `search_terms` fields, the only ones the client reads besides the
`status`/`items_found` fields it merely forwards), or a failure (network
error or non-ok response). -/
inductive SearchResponse
  | ok (message : String) (search_terms : Option (List String))
  | err (detail : String)
deriving DecidableEq, Repr

/-- The observable outcome of one handleSearch call: the error and status
banners, the loading flag, how many network requests were issued, and the
route parameters navigated to (if any). -/
structure SearchScreenOutcome where
  error : String
  statusMessage : String
  loading : Bool
  networkCalls : Nat
  navigatedTo : Option RouteParams
deriving DecidableEq, Repr

/-- JavaScript `String.prototype.trim`: strip leading and trailing
whitespace.  Implemented by structural recursion on the character list so
that it evaluates on concrete inputs. -/
def jsTrim (s : String) : String :=
  ⟨((s.data.dropWhile Char.isWhitespace).reverse.dropWhile
      Char.isWhitespace).reverse⟩

def GENAI_EMPTY_MSG : String :=
  "Describe what you\x27re looking for to continue."

def REGULAR_EMPTY_MSG : String := "Enter a search term to continue."

/-- `handleSearch` from SearchScreen: clears banners, sets loading, validates
the trimmed input (an empty trimmed term or prompt produces a local error and
returns before any request), otherwise issues the POST and either navigates
to the Results screen or surfaces the failure.  `DEFAULT_USER_ID = 1`. -/
def handleSearch (mode : SearchMode) (searchTerm userInput : String)
    (resp : SearchResponse) : SearchScreenOutcome :=
  let s0 : SearchScreenOutcome :=
    { error := "", statusMessage := "", loading := true,
      networkCalls := 0, navigatedTo := none }
  match mode with
  | .genai =>
    let raw := jsTrim userInput
    if raw = "" then
      { s0 with error := GENAI_EMPTY_MSG, loading := false }
    else
      match resp with
      | .ok message terms =>
        { s0 with
          networkCalls := 1,
          statusMessage := if message = "" then "Analyzing products..." else message,
          navigatedTo := some
            { searchTerm := some (match terms with
                | some (t :: _) => t
                | _ => raw),
              searchTerms := some (terms.getD [raw]),
              userId := 1 },
          loading := false }
      | .err detail =>
        { s0 with
          networkCalls := 1,
          error := if detail = "" then "Request failed" else detail,
          loading := false }
  | .regular =>
    let trimmed := jsTrim searchTerm
    if trimmed = "" then
      { s0 with error := REGULAR_EMPTY_MSG, loading := false }
    else
      match resp with
      | .ok message _ =>
        { s0 with
          networkCalls := 1,
          statusMessage := if message = "" then "Analyzing products..." else message,
          navigatedTo := some
            { searchTerm := some trimmed, searchTerms := none, userId := 1 },
          loading := false }
      | .err detail =>
        { s0 with
          networkCalls := 1,
          error := if detail = "" then "Request failed" else detail,
          loading := false }

/-! ## Product open and click logging -/

/-- The externally observable actions of handleOpenProduct / logClick, in
program order. -/
inductive ClickEffect
  | navigate (url : String)
  | clickLogPost (item : ResultItem)
  | consoleError
deriving DecidableEq, Repr

/-- `logClick`: the POST /api/click attempt; when the request fails the catch
block only logs to the console — the error is swallowed and nothing else
happens. -/
def logClick (requestFails : Bool) (item : ResultItem) : List ClickEffect :=
  if requestFails then [.clickLogPost item, .consoleError]
  else [.clickLogPost item]

/-- `const url = item.link || item.product_url` with JavaScript truthiness. -/
def productUrl (item : ResultItem) : Option String :=
  match truthyS item.link, item.link with
  | true, some u => some u
  | _, _ =>
    match truthyS item.product_url, item.product_url with
    | true, some u => some u
    | _, _ => none

/-- `handleOpenProduct`: no item or no URL is a silent no-op; otherwise the
deep-link navigation happens first and the click log is fired afterwards
(fire-and-forget, not awaited). -/
def handleOpenProduct (requestFails : Bool) (item : Option ResultItem) :
    List ClickEffect :=
  match item with
  | none => []
  | some it =>
    match productUrl it with
    | none => []
    | some url => .navigate url :: logClick requestFails it

/-! ## The polling run (timer semantics)

The polling useEffect of ResultsScreen registers three timers when it runs
(with `hasTerm` true and `loading` false): a one-shot first-poll timeout at
+5 units, a repeating poll interval every 10 units, and a one-shot ceiling
timeout at +300 units whose callback clears the poll interval and sets the
polling flag to false.  Crucially, the effect's dependency array is
`[searchTerm, searchTerms, loading]` — the `polling` flag is not a
dependency, so `setPolling(false)` from inside `fetchResults` does not
re-run the effect and does not clear any timer; only the ceiling callback
and the effect cleanup clear timers.

The message-rotation effect (the 12-second `pipelineStatusIndex` interval)
only cycles the displayed status string and touches none of the state below,
so it is not modelled.
-/

inductive TimerKind
  | firstPoll
  | pollTick
  | ceiling
deriving DecidableEq, Repr

/-- A registered timer: its registration id (0 = firstPollTimer,
1 = pollInterval, 2 = timeout), its kind, and the absolute time-unit at
which it next fires (time 0 = the moment the polling effect runs). -/
structure Timer where
  id : Nat
  kind : TimerKind
  fireAt : Nat
deriving DecidableEq, Repr

/-- The state of one polling run: the component state, the live timers, the
number of poll fetches issued so far, and the times at which poll fetches
were issued. -/
structure PollSys where
  ps : PollerState
  timers : List Timer
  pollCount : Nat
  pollLog : List Nat
deriving DecidableEq, Repr

/-- The next timer due: minimal fire time, ties broken by registration
order (smaller id first). -/
def nextTimer (ts : List Timer) : Option Timer :=
  ts.foldl
    (fun acc t =>
      match acc with
      | none => some t
      | some u =>
        if t.fireAt < u.fireAt ∨ (t.fireAt = u.fireAt ∧ t.id < u.id) then some t
        else some u)
    none

/-- The body of the polling useEffect: if `hasTerm` is false or `loading` is
true it does nothing; otherwise it sets the polling flag and registers the
first-poll timeout (+5), the poll interval (first due at +10, period 10) and
the ceiling timeout (+300). -/
def startPolling (p : RouteParams) (s : PollerState) : PollSys :=
  if hasTerm p = false ∨ s.loading = true then
    { ps := s, timers := [], pollCount := 0, pollLog := [] }
  else
    { ps := { s with polling := true },
      timers := [⟨0, .firstPoll, 5⟩, ⟨1, .pollTick, 10⟩, ⟨2, .ceiling, 300⟩],
      pollCount := 0, pollLog := [] }

/-- Fire the next due timer.  A poll timer runs `fetchResultsRef.current(true)`
with the request resolving to `o k` for the k-th poll issued; the interval
reschedules itself 10 units later; the ceiling clears the interval and sets
the polling flag to false.  With no timer left the run is over and the state
is unchanged. -/
def stepA (o : Nat → FetchOutcome) (p : RouteParams) (sys : PollSys) : PollSys :=
  match nextTimer sys.timers with
  | none => sys
  | some t =>
    match t.kind with
    | .firstPoll =>
      { ps := fetchResults p true (o sys.pollCount) t.fireAt sys.ps,
        timers := sys.timers.filter (fun x => x.id ≠ t.id),
        pollCount := sys.pollCount + 1,
        pollLog := sys.pollLog ++ [t.fireAt] }
    | .pollTick =>
      { ps := fetchResults p true (o sys.pollCount) t.fireAt sys.ps,
        timers := sys.timers.map
          (fun x => if x.id = t.id then { x with fireAt := x.fireAt + 10 } else x),
        pollCount := sys.pollCount + 1,
        pollLog := sys.pollLog ++ [t.fireAt] }
    | .ceiling =>
      { sys with
        timers := (sys.timers.filter (fun x => x.id ≠ t.id)).filter
          (fun x => x.kind ≠ .pollTick),
        ps := { sys.ps with polling := false } }

/-- Run `n` timer firings of the polling machine. -/
def runA (o : Nat → FetchOutcome) (p : RouteParams) : Nat → PollSys → PollSys
  | 0, s => s
  | n + 1, s => runA o p n (stepA o p s)

/-! ## In-flight requests and cancellation

The machine below refines the synchronous poll resolution of `stepA` by
separating the issuing of a request from the arrival of its response, which
is what the cancellation claims are about.  A timer firing issues a request
and records it in-flight; a `resolve` event delivers the response of an
in-flight request and runs the continuation of `fetchResults`.  A
`supersede` event is the effect cleanup caused by a new search reaching the
still-mounted screen (all timers cleared, polling flag cleared); a
`navigateAway` event is the cleanup-plus-unmount caused by leaving the
screen.  Nothing in the source aborts an in-flight request or checks its
staleness: its continuation runs whenever the response arrives, subject only
to React dropping setState calls on an unmounted component. -/

structure FlightSys where
  ps : PollerState
  timers : List Timer
  inflight : List (Nat × Bool)
  nextFid : Nat
  mounted : Bool
deriving DecidableEq, Repr

inductive FlightEvent
  | timerFire
  | resolve (fid : Nat) (out : FetchOutcome) (now : Nat)
  | supersede
  | navigateAway
deriving Repr

def startPollingB (p : RouteParams) (s : PollerState) : FlightSys :=
  if hasTerm p = false ∨ s.loading = true then
    { ps := s, timers := [], inflight := [], nextFid := 0, mounted := true }
  else
    { ps := { s with polling := true },
      timers := [⟨0, .firstPoll, 5⟩, ⟨1, .pollTick, 10⟩, ⟨2, .ceiling, 300⟩],
      inflight := [], nextFid := 0, mounted := true }

def stepB (p : RouteParams) (sys : FlightSys) : FlightEvent → FlightSys
  | .timerFire =>
    match nextTimer sys.timers with
    | none => sys
    | some t =>
      match t.kind with
      | .firstPoll =>
        match fetchIssue p true sys.ps with
        | (s1, issued) =>
          { sys with
            ps := s1,
            timers := sys.timers.filter (fun x => x.id ≠ t.id),
            inflight :=
              if issued then sys.inflight ++ [(sys.nextFid, true)]
              else sys.inflight,
            nextFid := sys.nextFid + 1 }
      | .pollTick =>
        match fetchIssue p true sys.ps with
        | (s1, issued) =>
          { sys with
            ps := s1,
            timers := sys.timers.map
              (fun x => if x.id = t.id then { x with fireAt := x.fireAt + 10 } else x),
            inflight :=
              if issued then sys.inflight ++ [(sys.nextFid, true)]
              else sys.inflight,
            nextFid := sys.nextFid + 1 }
      | .ceiling =>
        { sys with
          timers := (sys.timers.filter (fun x => x.id ≠ t.id)).filter
            (fun x => x.kind ≠ .pollTick),
          ps := { sys.ps with polling := false } }
  | .resolve fid out now =>
    match sys.inflight.lookup fid with
    | some isPolling =>
      { sys with
        inflight := sys.inflight.filter (fun e => e.1 ≠ fid),
        ps := fetchResolve isPolling out now sys.mounted sys.ps }
    | none => sys
  | .supersede =>
    { sys with timers := [], ps := { sys.ps with polling := false } }
  | .navigateAway =>
    { sys with timers := [], mounted := false }

def runB (p : RouteParams) (sys : FlightSys) (evs : List FlightEvent) : FlightSys :=
  evs.foldl (stepB p) sys

/-! ## Concrete fixtures -/

/-- A single-term search, as navigated to by a regular search. -/
def p0 : RouteParams := { searchTerm := some "shoes", searchTerms := none, userId := 1 }

/-- The component state at the moment the polling effect runs: the initial
fetch has completed (loading false), no error, no poll failures yet, and the
item collection holds whatever the initial fetch produced. -/
def ps0 (init : List ResultItem) : PollerState :=
  { items := init, loading := false, error := "", lastUpdated := none,
    polling := false, pollFailures := 0 }

/-- Ten distinct items — a poll response at the settle threshold. -/
def its10 : List ResultItem := (List.range 10).map (fun i => { asin := i })

/-- An oracle under which every poll returns ten items. -/
def oracleSettle : Nat → FetchOutcome := fun _ => .success its10

/-- An oracle under which every poll fails. -/
def oracleFail : Nat → FetchOutcome := fun _ => .failure "network down"

/-- The component state while the blocking error view is shown. -/
def errPs : PollerState :=
  { items := [], loading := false, error := "Failed to load results",
    lastUpdated := none, polling := false, pollFailures := 0 }

/-- The error-view retry button is `onPress={fetchResults}`: React Native
invokes onPress with the press event as its first argument, so the
`isPolling` parameter receives the truthy event object instead of its
default false — the call takes the polling path. -/
def tryAgainPress (p : RouteParams) (out : FetchOutcome) (now : Nat)
    (s : PollerState) : PollerState :=
  fetchResults p true out now s

/-- The pull-to-refresh control is `onRefresh={() => fetchResults(false)}`:
an explicit non-polling call. -/
def onRefresh (p : RouteParams) (out : FetchOutcome) (now : Nat)
    (s : PollerState) : PollerState :=
  fetchResults p false out now s

/-- The stale response of a poll issued for a superseded search. -/
def staleResp : List ResultItem := [{ asin := 42 }]

/-- A view that has unmounted while one poll request is still in flight. -/
def unmountedSys : FlightSys :=
  { ps := ps0 [], timers := [], inflight := [(0, true)], nextFid := 1,
    mounted := false }

/-- Example items for the pill-visibility property. -/
def iA : ResultItem := { asin := 1, search_terms := ["A"] }

def iB : ResultItem := { asin := 2, search_terms := ["B"] }

def iNone : ResultItem := { asin := 3 }

/-- Example selection: pill A selected, pill B deselected. -/
def pillsAB : List (String × Bool) := [("A", true), ("B", false)]

/-- The time at which the k-th poll fetch of a run is issued: the first-poll
timeout fires at 5 units, the interval then fires at 10, 20, 30, ... -/
def pollTime (k : Nat) : Nat := if k = 0 then 5 else 10 * k

/-- The live timers after k firings of an uninterrupted polling run
(meaningful for k ≤ 31): initially all three timers; after the first-poll
timeout has fired, the interval (next due at 10·k) and the ceiling. -/
def timersAt (k : Nat) : List Timer :=
  if k = 0 then [⟨0, .firstPoll, 5⟩, ⟨1, .pollTick, 10⟩, ⟨2, .ceiling, 300⟩]
  else [⟨1, .pollTick, 10 * k⟩, ⟨2, .ceiling, 300⟩]

/-- The component state after the first k polls of a run have been issued
and resolved. -/
def pollsFold (o : Nat → FetchOutcome) (p : RouteParams) :
    Nat → PollerState → PollerState
  | 0, s => s
  | k + 1, s => fetchResults p true (o k) (pollTime k) (pollsFold o p k s)

/-- Whether a fetch outcome is a failure. -/
def isFail : FetchOutcome → Bool
  | .failure _ => true
  | .success _ => false

/-- Whether a fetch outcome stays below the settle threshold: a failure, or
a success with fewer than ten items. -/
def under10 : FetchOutcome → Bool
  | .success l => decide (l.length < 10)
  | .failure _ => true

/-! ## Helper lemmas -/

lemma runA_succ (o : Nat → FetchOutcome) (p : RouteParams) (n : Nat)
    (sys : PollSys) : runA o p (n + 1) sys = stepA o p (runA o p n sys) := by
  induction n generalizing sys with
  | zero => rfl
  | succ m ih => exact ih (stepA o p sys)

lemma stepA_no_timers (o : Nat → FetchOutcome) (p : RouteParams)
    (sys : PollSys) (h : sys.timers = []) : stepA o p sys = sys := by
  unfold stepA
  rw [h]
  rfl

/-- Normal form of a poll fetch that fails. -/
lemma fetchResults_poll_failure (p : RouteParams) (hp : hasTerm p = true)
    (msg : String) (now : Nat) (s : PollerState) :
    fetchResults p true (.failure msg) now s =
      if POLL_FAILURES_BEFORE_ERROR ≤ s.pollFailures + 1 then
        { s with error := POLL_FAIL_MSG, polling := false,
                 pollFailures := s.pollFailures + 1 }
      else { s with error := "", pollFailures := s.pollFailures + 1 } := by
  unfold fetchResults fetchIssue fetchResolve
  simp [hp]

/-- Normal form of a poll fetch that succeeds. -/
lemma fetchResults_poll_success (p : RouteParams) (hp : hasTerm p = true)
    (l : List ResultItem) (now : Nat) (s : PollerState) :
    fetchResults p true (.success l) now s =
      if 0 < l.length then
        if 10 ≤ l.length then
          { s with error := "", pollFailures := 0, items := l,
                   lastUpdated := some now, polling := false }
        else
          { s with error := "", pollFailures := 0, items := l,
                   lastUpdated := some now }
      else { s with error := "", pollFailures := 0, items := l } := by
  unfold fetchResults fetchIssue fetchResolve
  simp [hp]

/-- The timers, the number of poll fetches issued and the times at which
they are issued do not depend on what any fetch returns: `stepA` updates
them from the timer list alone. -/
lemma stepA_sched (o o' : Nat → FetchOutcome) (p : RouteParams)
    (s1 s2 : PollSys) (ht : s1.timers = s2.timers)
    (hc : s1.pollCount = s2.pollCount) (hl : s1.pollLog = s2.pollLog) :
    (stepA o p s1).timers = (stepA o' p s2).timers ∧
    (stepA o p s1).pollCount = (stepA o' p s2).pollCount ∧
    (stepA o p s1).pollLog = (stepA o' p s2).pollLog := by
  unfold stepA
  rw [ht, hc, hl]
  cases h : nextTimer s2.timers with
  | none => exact ⟨ht, hc, hl⟩
  | some t =>
    obtain ⟨i, k, f⟩ := t
    cases k <;> simp [ht, hc, hl]

lemma runA_sched (o o' : Nat → FetchOutcome) (p : RouteParams) (n : Nat)
    (sys : PollSys) :
    (runA o p n sys).timers = (runA o' p n sys).timers ∧
    (runA o p n sys).pollCount = (runA o' p n sys).pollCount ∧
    (runA o p n sys).pollLog = (runA o' p n sys).pollLog := by
  induction n with
  | zero => exact ⟨rfl, rfl, rfl⟩
  | succ m ih =>
    rw [runA_succ, runA_succ]
    exact stepA_sched o o' p _ _ ih.1 ih.2.1 ih.2.2

/-- When the component has unmounted, the continuation of a resolving fetch
drops every setState call: the item collection, the error, the polling flag,
the loading flag and the timestamp are unchanged. -/
lemma fetchResolve_unmounted (isPolling : Bool) (out : FetchOutcome)
    (now : Nat) (s : PollerState) :
    (fetchResolve isPolling out now false s).items = s.items ∧
    (fetchResolve isPolling out now false s).error = s.error ∧
    (fetchResolve isPolling out now false s).polling = s.polling ∧
    (fetchResolve isPolling out now false s).loading = s.loading ∧
    (fetchResolve isPolling out now false s).lastUpdated = s.lastUpdated := by
  unfold fetchResolve
  cases out <;> split_ifs <;> simp_all

/-- nextTimer of a two-element list picks the first unless the second is due
strictly earlier or ties with a smaller id. -/
lemma nextTimer_two (a b : Timer)
    (h : ¬(b.fireAt < a.fireAt ∨ (b.fireAt = a.fireAt ∧ b.id < a.id))) :
    nextTimer [a, b] = some a := by
  unfold nextTimer
  simp only [List.foldl]
  rw [if_neg h]

/-- Characterization of an uninterrupted polling run through its first 31
firings: the k-th firing issues the k-th poll at `pollTime k`, and the timer
list evolves as `timersAt`. -/
lemma runA_char (o : Nat → FetchOutcome) (p : RouteParams)
    (hp : hasTerm p = true) (init : List ResultItem) :
    ∀ k, k ≤ 31 →
      runA o p k (startPolling p (ps0 init)) =
        { ps := pollsFold o p k { ps0 init with polling := true },
          timers := timersAt k,
          pollCount := k,
          pollLog := (List.range k).map pollTime } := by
  intro k
  induction k with
  | zero =>
    intro _
    simp [startPolling, hp, ps0, runA, pollsFold, timersAt]
  | succ j ih =>
    intro hk
    rw [runA_succ, ih (by omega)]
    by_cases hj : j = 0
    · subst hj
      have hN : nextTimer (timersAt 0) = some ⟨0, .firstPoll, 5⟩ := by decide
      simp only [stepA, hN]
      simp [timersAt, pollsFold, pollTime]
      decide
    · have h30 : j ≤ 30 := by omega
      have hT : timersAt j = [⟨1, .pollTick, 10 * j⟩, ⟨2, .ceiling, 300⟩] := by
        simp [timersAt, hj]
      have hN : nextTimer (timersAt j) = some ⟨1, .pollTick, 10 * j⟩ := by
        rw [hT]
        refine nextTimer_two _ _ ?_
        simp
        omega
      simp only [stepA, hN]
      rw [hT]
      simp [timersAt, hj, pollsFold, pollTime, List.range_succ,
        Timer.mk.injEq]
      omega

/-- A response resolving on an unmounted view changes no state field. -/
lemma stepB_resolve_unmounted (p : RouteParams) (sys : FlightSys) (fid : Nat)
    (out : FetchOutcome) (now : Nat) (hm : sys.mounted = false) :
    (stepB p sys (.resolve fid out now)).ps.items = sys.ps.items ∧
    (stepB p sys (.resolve fid out now)).ps.error = sys.ps.error ∧
    (stepB p sys (.resolve fid out now)).ps.polling = sys.ps.polling := by
  simp only [stepB]
  cases h : sys.inflight.lookup fid with
  | none => exact ⟨rfl, rfl, rfl⟩
  | some isP =>
    rw [hm]
    exact ⟨(fetchResolve_unmounted isP out now sys.ps).1,
           (fetchResolve_unmounted isP out now sys.ps).2.1,
           (fetchResolve_unmounted isP out now sys.ps).2.2.1⟩

/-- Invariant of an uninterrupted polling run in which every poll stays
below the settle threshold and no two consecutive polls fail: the error
stays empty, the polling flag stays set, and the failure counter is 1 right
after a failed poll and 0 otherwise. -/
lemma pollsFold_good (o : Nat → FetchOutcome) (p : RouteParams)
    (hp : hasTerm p = true) (init : List ResultItem)
    (hsmall : ∀ k, k < 31 → under10 (o k) = true)
    (hfail : ∀ k, k < 30 → (isFail (o k) && isFail (o (k + 1))) = false) :
    ∀ k, k ≤ 31 →
      (pollsFold o p k { ps0 init with polling := true }).error = "" ∧
      (pollsFold o p k { ps0 init with polling := true }).polling = true ∧
      (pollsFold o p k { ps0 init with polling := true }).pollFailures
        = (match k with
           | 0 => 0
           | j + 1 => if isFail (o j) then 1 else 0) := by
  intro k
  induction k with
  | zero => exact fun _ => ⟨rfl, rfl, rfl⟩
  | succ j ih =>
    intro hk
    obtain ⟨he, hpo, hpf⟩ := ih (by omega)
    cases ho : o j with
    | success l =>
      have hl : l.length < 10 := by
        have h := hsmall j (by omega)
        rw [ho] at h
        simpa [under10] using h
      unfold pollsFold
      rw [ho, fetchResults_poll_success p hp]
      by_cases h0 : 0 < l.length
      · rw [if_pos h0, if_neg (by omega)]
        exact ⟨rfl, hpo, by simp [ho, isFail]⟩
      · rw [if_neg h0]
        exact ⟨rfl, hpo, by simp [ho, isFail]⟩
    | failure m =>
      have hprev0 :
          (pollsFold o p j { ps0 init with polling := true }).pollFailures = 0 := by
        cases j with
        | zero => simpa using hpf
        | succ i =>
          have h := hfail i (by omega)
          have hFi : isFail (o i) = false := by
            rcases Bool.eq_false_or_eq_true (isFail (o i)) with hb | hb
            · rw [hb, ho] at h
              simp [isFail] at h
            · exact hb
          simp [hpf, hFi]
      unfold pollsFold
      rw [ho, fetchResults_poll_failure p hp]
      rw [if_neg (by simp [hprev0, POLL_FAILURES_BEFORE_ERROR])]
      exact ⟨rfl, hpo, by simp [hprev0, ho, isFail]⟩

/-! ## Claim theorems -/

/-- Claim C1, counterexample: under `oracleSettle` the first poll (at time 5)
returns ten items, the settle branch runs (the polling flag becomes false),
yet the interval timer still fires and a further poll fetch is issued at
time 10 — the claim that no further poll fetch is issued is false. -/
theorem c1_counterexample :
    (runA oracleSettle p0 1 (startPolling p0 (ps0 []))).ps.items.length = 10 ∧
    (runA oracleSettle p0 1 (startPolling p0 (ps0 []))).ps.polling = false ∧
    (runA oracleSettle p0 1 (startPolling p0 (ps0 []))).pollLog = [5] ∧
    (runA oracleSettle p0 2 (startPolling p0 (ps0 []))).pollLog = [5, 10] := by
  decide

/-- Claim C2, counterexample: under `oracleFail` the second poll (at time 10)
reaches the failure threshold — the error is set and the polling flag becomes
false — yet the interval timer still fires and a further poll fetch is issued
at time 20, so polling is not halted. -/
theorem c2_counterexample :
    (runA oracleFail p0 2 (startPolling p0 (ps0 []))).ps.pollFailures = 2 ∧
    (runA oracleFail p0 2 (startPolling p0 (ps0 []))).ps.error = POLL_FAIL_MSG ∧
    (runA oracleFail p0 2 (startPolling p0 (ps0 []))).ps.polling = false ∧
    (runA oracleFail p0 3 (startPolling p0 (ps0 []))).pollLog = [5, 10, 20] := by
  decide

/-- Claim C3, counterexample: a poll for the old search is issued at time 5
and is still in flight when the search is superseded; the cleanup clears all
timers, but when the stale response arrives it is applied wholesale to the
item collection of the still-mounted screen — it is not discarded. -/
theorem c3_counterexample :
    (runB p0 (startPollingB p0 (ps0 [])) [.timerFire, .supersede]).timers = [] ∧
    (runB p0 (startPollingB p0 (ps0 [])) [.timerFire, .supersede]).inflight
      = [(0, true)] ∧
    (runB p0 (startPollingB p0 (ps0 []))
      [.timerFire, .supersede, .resolve 0 (.success staleResp) 6]).ps.items
      = staleResp := by
  decide

/-- Claim C4: every successful fetch — initial or poll — replaces the item
collection wholesale with exactly the returned collection; the previous
items are never merged in and no extra deduplication happens. -/
theorem c4_replace (p : RouteParams) (hp : hasTerm p = true) (isPolling : Bool)
    (l : List ResultItem) (now : Nat) (s : PollerState) :
    (fetchResults p isPolling (.success l) now s).items = l := by
  unfold fetchResults fetchIssue fetchResolve
  simp only [hp]
  split_ifs <;> simp_all

/-- Witness for C4 at a concrete input. -/
theorem c4_replace_witness :
    hasTerm p0 = true ∧
    (fetchResults p0 true (.success its10) 7
      { items := [iA], loading := false, error := "", lastUpdated := none,
        polling := true, pollFailures := 0 }).items = its10 :=
  ⟨by decide,
   c4_replace p0 (by decide) true its10 7
     { items := [iA], loading := false, error := "", lastUpdated := none,
       polling := true, pollFailures := 0 }⟩

/-- Claim C7: in multi-term mode with a non-empty pill selection, an item is
in the visible set iff its term set is empty or some of its terms has a
selected pill; in particular the example items with selection A selected and
B deselected yield the visible set with asins 1 and 3. -/
theorem c7_pill_visibility (pills : List (String × Bool))
    (items : List ResultItem) (x : ResultItem) (hp : pills ≠ []) :
    (x ∈ visibleItems true pills items ↔
      x ∈ items ∧
        (itemTerms x = [] ∨ ∃ t ∈ itemTerms x, pillSelected pills t = true)) ∧
    visibleItems true pillsAB [iA, iB, iNone] = [iA, iNone] := by
  constructor
  · have hlen : 0 < pills.length := List.length_pos.mpr hp
    simp [visibleItems, hlen, List.mem_filter, List.isEmpty_iff,
      List.any_eq_true]
  · decide

/-- Witness for C7 at a concrete input. -/
theorem c7_pill_visibility_witness :
    pillsAB ≠ [] ∧
    ((iB ∈ visibleItems true pillsAB [iA, iB, iNone] ↔
      iB ∈ [iA, iB, iNone] ∧
        (itemTerms iB = [] ∨ ∃ t ∈ itemTerms iB, pillSelected pillsAB t = true)) ∧
     visibleItems true pillsAB [iA, iB, iNone] = [iA, iNone]) :=
  ⟨by decide, c7_pill_visibility pillsAB [iA, iB, iNone] iB (by decide)⟩

/-- Claim C8: submitting a blank (empty or whitespace-only) search term in
regular mode, or a blank prompt in GenAI mode, surfaces a local validation
error and issues zero network calls. -/
theorem c8_validation (mode : SearchMode) (searchTerm userInput : String)
    (resp : SearchResponse)
    (h : (mode = .regular ∧ jsTrim searchTerm = "") ∨
         (mode = .genai ∧ jsTrim userInput = "")) :
    (handleSearch mode searchTerm userInput resp).networkCalls = 0 ∧
    (handleSearch mode searchTerm userInput resp).error ≠ "" := by
  rcases h with ⟨hm, ht⟩ | ⟨hm, ht⟩ <;> subst hm <;>
    simp [handleSearch, ht, REGULAR_EMPTY_MSG, GENAI_EMPTY_MSG]

/-- Witness for C8 at a concrete input: a whitespace-only regular search. -/
theorem c8_validation_witness :
    ((SearchMode.regular = SearchMode.regular ∧ jsTrim "   " = "") ∨
     (SearchMode.regular = SearchMode.genai ∧ jsTrim "x" = "")) ∧
    ((handleSearch .regular "   " "x" (.err "boom")).networkCalls = 0 ∧
     (handleSearch .regular "   " "x" (.err "boom")).error ≠ "") :=
  ⟨Or.inl ⟨rfl, by decide⟩,
   c8_validation .regular "   " "x" (.err "boom") (Or.inl ⟨rfl, by decide⟩)⟩

/-- Claim C9: when the item carries a URL, the deep-link navigation is the
first effect of handleOpenProduct and the click-log request follows it; a
failing click-log request only adds a swallowed console error after the
navigation — it never blocks, errors, or prevents the navigation. -/
theorem c9_click_swallowed (requestFails : Bool) (it : ResultItem)
    (url : String) (h : productUrl it = some url) :
    handleOpenProduct requestFails (some it)
      = .navigate url :: logClick requestFails it ∧
    (handleOpenProduct requestFails (some it)).head? = some (.navigate url) ∧
    handleOpenProduct true (some it)
      = [.navigate url, .clickLogPost it, .consoleError] := by
  refine ⟨?_, ?_, ?_⟩ <;> simp [handleOpenProduct, h, logClick]

/-- Witness for C9 at a concrete input, with the click-log request failing. -/
theorem c9_click_swallowed_witness :
    productUrl { asin := 5, link := some "https://store/x" } = some "https://store/x" ∧
    (handleOpenProduct true (some { asin := 5, link := some "https://store/x" })
      = .navigate "https://store/x"
        :: logClick true { asin := 5, link := some "https://store/x" } ∧
     (handleOpenProduct true (some { asin := 5, link := some "https://store/x" })).head?
      = some (.navigate "https://store/x") ∧
     handleOpenProduct true (some { asin := 5, link := some "https://store/x" })
      = [.navigate "https://store/x",
         .clickLogPost { asin := 5, link := some "https://store/x" },
         .consoleError]) :=
  ⟨by decide,
   c9_click_swallowed true { asin := 5, link := some "https://store/x" }
     "https://store/x" (by decide)⟩

/-- Claim C10: when both URL fields are absent, opening the product is a
complete no-op — no navigation and no click-log attempt (and a missing item
is likewise a no-op). -/
theorem c10_no_url_noop (requestFails : Bool) (it : ResultItem)
    (h1 : it.link = none) (h2 : it.product_url = none) :
    handleOpenProduct requestFails (some it) = [] ∧
    handleOpenProduct requestFails none = [] := by
  constructor
  · simp [handleOpenProduct, productUrl, h1, h2, truthyS]
  · rfl

/-- Witness for C10 at a concrete input. -/
theorem c10_no_url_noop_witness :
    ResultItem.link { asin := 9 } = none ∧ ResultItem.product_url { asin := 9 } = none ∧
    (handleOpenProduct false (some { asin := 9 }) = [] ∧
     handleOpenProduct false none = []) :=
  ⟨rfl, rfl, c10_no_url_noop false { asin := 9 } rfl rfl⟩

/-- Claim C6 (divergence, evaluated at the failing input): the Try Again
button receives the press event as its first argument, so `isPolling` is
truthy and the retry takes the polling path — a failed retry clears the
error banner and silently bumps the failure counter instead of surfacing the
failure, and it never shows the loading state.  Pull-to-refresh, by
contrast, passes false explicitly and takes the initial-fetch path,
surfacing the failure.  A successful retry never increments the counter on
either path. -/
theorem c6_divergence :
    (tryAgainPress p0 (.failure "network down") 0 errPs).error = "" ∧
    (tryAgainPress p0 (.failure "network down") 0 errPs).pollFailures = 1 ∧
    (tryAgainPress p0 (.failure "network down") 0 errPs).loading = false ∧
    (onRefresh p0 (.failure "network down") 0 errPs).error = "network down" ∧
    (onRefresh p0 (.failure "network down") 0 errPs).pollFailures = 0 ∧
    (tryAgainPress p0 (.success its10) 0
      { errPs with pollFailures := 1 }).pollFailures = 0 ∧
    (onRefresh p0 (.success its10) 0
      { errPs with pollFailures := 1 }).pollFailures = 1 := by
  decide

/-- Claim C1 (amended): a poll that returns at least ten items sets the
polling flag to false, but the timers that fire, the number of poll fetches
issued and the times at which they are issued are independent of what any
poll returns — in particular a poll returning at least ten items does not
cancel the interval timer, and poll fetches continue to be issued until the
ceiling or the effect cleanup. -/
theorem c1_amended (p : RouteParams) (hp : hasTerm p = true)
    (s : PollerState) (l : List ResultItem) (hl : 10 ≤ l.length) (now : Nat)
    (o o' : Nat → FetchOutcome) (n : Nat) (sys : PollSys) :
    (fetchResults p true (.success l) now s).polling = false ∧
    (runA o p n sys).timers = (runA o' p n sys).timers ∧
    (runA o p n sys).pollCount = (runA o' p n sys).pollCount ∧
    (runA o p n sys).pollLog = (runA o' p n sys).pollLog := by
  refine ⟨?_, (runA_sched o o' p n sys).1, (runA_sched o o' p n sys).2.1,
    (runA_sched o o' p n sys).2.2⟩
  rw [fetchResults_poll_success p hp, if_pos (by omega), if_pos hl]

/-- Witness for the amended C1 at a concrete input. -/
theorem c1_amended_witness :
    (fetchResults p0 true (.success its10) 5 (ps0 [])).polling = false ∧
    (runA oracleSettle p0 3 (startPolling p0 (ps0 []))).timers
      = (runA oracleFail p0 3 (startPolling p0 (ps0 []))).timers ∧
    (runA oracleSettle p0 3 (startPolling p0 (ps0 []))).pollCount
      = (runA oracleFail p0 3 (startPolling p0 (ps0 []))).pollCount ∧
    (runA oracleSettle p0 3 (startPolling p0 (ps0 []))).pollLog
      = (runA oracleFail p0 3 (startPolling p0 (ps0 []))).pollLog :=
  c1_amended p0 (by decide) (ps0 []) its10 (by decide) 5
    oracleSettle oracleFail 3 (startPolling p0 (ps0 []))

/-- Claim C2 (amended): a poll failure increments the failure counter and a
poll success resets it to zero; a second consecutive failure (counter at 1)
reaches the threshold of 2 and sets the blocking error and clears the
polling flag, while a single failure from a clean state sets no error and a
following success leaves counter zero and no error — but reaching the
threshold does not halt the interval timer: a further poll fetch is still
issued afterwards. -/
theorem c2_amended (p : RouteParams) (hp : hasTerm p = true)
    (sAny s s1f : PollerState) (h0 : s.pollFailures = 0)
    (h1 : s1f.pollFailures = 1) (msg : String) (l : List ResultItem)
    (t1 t2 : Nat) :
    (fetchResults p true (.failure msg) t1 sAny).pollFailures
      = sAny.pollFailures + 1 ∧
    (fetchResults p true (.success l) t1 sAny).pollFailures = 0 ∧
    (fetchResults p true (.failure msg) t1 s1f).error = POLL_FAIL_MSG ∧
    (fetchResults p true (.failure msg) t1 s1f).polling = false ∧
    (fetchResults p true (.failure msg) t1 s).error = "" ∧
    (fetchResults p true (.failure msg) t1 s).polling = s.polling ∧
    (fetchResults p true (.success l) t2
        (fetchResults p true (.failure msg) t1 s)).pollFailures = 0 ∧
    (fetchResults p true (.success l) t2
        (fetchResults p true (.failure msg) t1 s)).error = "" ∧
    (runA oracleFail p0 3 (startPolling p0 (ps0 []))).pollCount = 3 := by
  have hthr : POLL_FAILURES_BEFORE_ERROR ≤ s1f.pollFailures + 1 := by
    simp [POLL_FAILURES_BEFORE_ERROR, h1]
  have hnothr : ¬ POLL_FAILURES_BEFORE_ERROR ≤ s.pollFailures + 1 := by
    simp [POLL_FAILURES_BEFORE_ERROR, h0]
  refine ⟨?_, ?_, ?_, ?_, ?_, ?_, ?_, ?_, by decide⟩
  · rw [fetchResults_poll_failure p hp]
    split_ifs <;> rfl
  · rw [fetchResults_poll_success p hp]
    split_ifs <;> rfl
  · rw [fetchResults_poll_failure p hp, if_pos hthr]
  · rw [fetchResults_poll_failure p hp, if_pos hthr]
  · rw [fetchResults_poll_failure p hp, if_neg hnothr]
  · rw [fetchResults_poll_failure p hp, if_neg hnothr]
  · rw [fetchResults_poll_success p hp]
    split_ifs <;> rfl
  · rw [fetchResults_poll_success p hp]
    split_ifs <;> rfl

/-- Witness for the amended C2 at a concrete input. -/
theorem c2_amended_witness :
    (fetchResults p0 true (.failure "x") 0 (ps0 [])).pollFailures
      = (ps0 []).pollFailures + 1 ∧
    (fetchResults p0 true (.success its10) 0 (ps0 [])).pollFailures = 0 ∧
    (fetchResults p0 true (.failure "x") 0
        { ps0 [] with pollFailures := 1 }).error = POLL_FAIL_MSG ∧
    (fetchResults p0 true (.failure "x") 0
        { ps0 [] with pollFailures := 1 }).polling = false ∧
    (fetchResults p0 true (.failure "x") 0 (ps0 [])).error = "" ∧
    (fetchResults p0 true (.failure "x") 0 (ps0 [])).polling
      = (ps0 []).polling ∧
    (fetchResults p0 true (.success its10) 1
        (fetchResults p0 true (.failure "x") 0 (ps0 []))).pollFailures = 0 ∧
    (fetchResults p0 true (.success its10) 1
        (fetchResults p0 true (.failure "x") 0 (ps0 []))).error = "" ∧
    (runA oracleFail p0 3 (startPolling p0 (ps0 []))).pollCount = 3 :=
  c2_amended p0 (by decide) (ps0 []) (ps0 [])
    { ps0 [] with pollFailures := 1 } rfl rfl "x" its10 0 1

/-- Claim C3 (amended): superseding a search or navigating away cancels all
pending timers, and a response resolving after the view has unmounted is
dropped (no state field changes); but a late response for a poll of a
superseded search arriving while the screen is still mounted is applied
wholesale to the item collection, not discarded. -/
theorem c3_amended (p : RouteParams) (sys sys2 : FlightSys) (fid : Nat)
    (out : FetchOutcome) (now : Nat) (hm : sys2.mounted = false) :
    (stepB p sys .supersede).timers = [] ∧
    (stepB p sys .navigateAway).timers = [] ∧
    (stepB p sys2 (.resolve fid out now)).ps.items = sys2.ps.items ∧
    (stepB p sys2 (.resolve fid out now)).ps.error = sys2.ps.error ∧
    (stepB p sys2 (.resolve fid out now)).ps.polling = sys2.ps.polling ∧
    (runB p0 (startPollingB p0 (ps0 []))
      [.timerFire, .supersede, .resolve 0 (.success staleResp) 6]).ps.items
      = staleResp := by
  obtain ⟨hi, he, hpo⟩ := stepB_resolve_unmounted p sys2 fid out now hm
  exact ⟨rfl, rfl, hi, he, hpo, by decide⟩

/-- Witness for the amended C3 at a concrete input. -/
theorem c3_amended_witness :
    unmountedSys.mounted = false ∧
    ((stepB p0 (startPollingB p0 (ps0 [])) .supersede).timers = [] ∧
     (stepB p0 (startPollingB p0 (ps0 [])) .navigateAway).timers = [] ∧
     (stepB p0 unmountedSys (.resolve 0 (.success staleResp) 6)).ps.items
       = unmountedSys.ps.items ∧
     (stepB p0 unmountedSys (.resolve 0 (.success staleResp) 6)).ps.error
       = unmountedSys.ps.error ∧
     (stepB p0 unmountedSys (.resolve 0 (.success staleResp) 6)).ps.polling
       = unmountedSys.ps.polling ∧
     (runB p0 (startPollingB p0 (ps0 []))
       [.timerFire, .supersede, .resolve 0 (.success staleResp) 6]).ps.items
       = staleResp) :=
  ⟨rfl,
   c3_amended p0 (startPollingB p0 (ps0 [])) unmountedSys 0
     (.success staleResp) 6 rfl⟩

/-- Claim C5: in a polling run in which no poll of the first 31 reaches the
settle threshold and no two consecutive polls fail, the 300-unit ceiling
(the 32nd firing) clears the interval: no timers remain, exactly 31 poll
fetches were issued (at times 5, 10, ..., 300), nothing further happens,
and the run ends settled — polling flag false with no error set. -/
theorem c5_ceiling (p : RouteParams) (hp : hasTerm p = true)
    (init : List ResultItem) (o : Nat → FetchOutcome)
    (hsmall : ∀ k, k < 31 → under10 (o k) = true)
    (hfail : ∀ k, k < 30 → (isFail (o k) && isFail (o (k + 1))) = false) :
    (runA o p 32 (startPolling p (ps0 init))).ps.error = "" ∧
    (runA o p 32 (startPolling p (ps0 init))).ps.polling = false ∧
    (runA o p 32 (startPolling p (ps0 init))).timers = [] ∧
    (runA o p 32 (startPolling p (ps0 init))).pollCount = 31 ∧
    (runA o p 32 (startPolling p (ps0 init))).pollLog
      = (List.range 31).map pollTime ∧
    runA o p 33 (startPolling p (ps0 init))
      = runA o p 32 (startPolling p (ps0 init)) := by
  have h31 := runA_char o p hp init 31 (by omega)
  have hN : nextTimer (timersAt 31) = some ⟨2, .ceiling, 300⟩ := by decide
  have h32 : runA o p 32 (startPolling p (ps0 init)) =
      { ps := { pollsFold o p 31 { ps0 init with polling := true } with
                polling := false },
        timers := [],
        pollCount := 31,
        pollLog := (List.range 31).map pollTime } := by
    rw [show (32 : Nat) = 31 + 1 from rfl, runA_succ, h31]
    simp only [stepA, hN]
    simp [timersAt]
  obtain ⟨he, _, _⟩ := pollsFold_good o p hp init hsmall hfail 31 (by omega)
  refine ⟨?_, ?_, ?_, ?_, ?_, ?_⟩
  · rw [h32]
    exact he
  · rw [h32]
  · rw [h32]
  · rw [h32]
  · rw [h32]
  · rw [show (33 : Nat) = 32 + 1 from rfl, runA_succ]
    refine stepA_no_timers o p _ ?_
    rw [h32]

/-- Witness for C5 at a concrete input: every poll returns an empty
collection, and the run settles at the ceiling. -/
theorem c5_ceiling_witness :
    (runA (fun _ => .success []) p0 32 (startPolling p0 (ps0 []))).ps.error
      = "" ∧
    (runA (fun _ => .success []) p0 32 (startPolling p0 (ps0 []))).ps.polling
      = false ∧
    (runA (fun _ => .success []) p0 32 (startPolling p0 (ps0 []))).timers
      = [] ∧
    (runA (fun _ => .success []) p0 32 (startPolling p0 (ps0 []))).pollCount
      = 31 ∧
    (runA (fun _ => .success []) p0 32 (startPolling p0 (ps0 []))).pollLog
      = (List.range 31).map pollTime ∧
    runA (fun _ => .success []) p0 33 (startPolling p0 (ps0 []))
      = runA (fun _ => .success []) p0 32 (startPolling p0 (ps0 [])) :=
  c5_ceiling p0 (by decide) [] (fun _ => .success [])
    (by decide) (by decide)

end Reccd
